import Mathlib

/-!
Shallow embedding of the statutory moratorium decision engine of the
claimclaw repository (src/claimclaw/legalbrain/rules.py, src/claimclaw/legal_rag.py,
src/claimclaw/evidence_matcher.py).

Python strings are modelled as lists of Unicode code points (`List Nat`);
`pyStr` converts a Lean string literal to that model.  Python exceptions
(ValueError raised by datetime.strptime) are modelled by `Option`: `none` is
the raised/propagated error.  `date.today()` is modelled as an explicit
`today` parameter, the single non-deterministic input of the engine.
-/

namespace ClaimClaw

/-- A Python `datetime.date`: a calendar date (year, month, day). -/
structure CalDate where
  year : Nat
  month : Nat
  day : Nat
deriving DecidableEq, Repr

/-- Python string, modelled as its list of Unicode code points. -/
def pyStr (s : String) : List Nat :=
  s.data.map Char.toNat

/-- Gregorian leap-year rule, as implemented by the Python `datetime` module. -/
def isLeapYear (y : Nat) : Bool :=
  y % 4 == 0 && (y % 100 != 0 || y % 400 == 0)

/-- Number of days in a month, as validated by the Python `datetime.date` type. -/
def daysInMonth (y m : Nat) : Nat :=
  if m == 2 then (if isLeapYear y then 29 else 28)
  else if m == 4 || m == 6 || m == 9 || m == 11 then 30
  else 31

/-- The dates `datetime.date` can represent: year in MINYEAR..MAXYEAR (1..9999),
month 1..12, day within the month. -/
def validDate (d : CalDate) : Bool :=
  1 ≤ d.year && d.year ≤ 9999 && 1 ≤ d.month && d.month ≤ 12 &&
    1 ≤ d.day && d.day ≤ daysInMonth d.year d.month

/-- Python `date` ordering (`a <= b`): lexicographic on (year, month, day). -/
def dateLe (a b : CalDate) : Bool :=
  if a.year ≠ b.year then a.year < b.year
  else if a.month ≠ b.month then a.month < b.month
  else a.day ≤ b.day

/-- Python `date` strict ordering (`a < b`). -/
def dateLt (a b : CalDate) : Bool :=
  dateLe a b && a ≠ b

/-- Is the code point an ASCII digit? -/
def isDigitCp (c : Nat) : Bool :=
  48 ≤ c && c ≤ 57

/-- Numeric value of a list of ASCII digit code points (most significant first). -/
def digitsToNat (l : List Nat) : Nat :=
  l.foldl (fun acc c => acc * 10 + (c - 48)) 0

/-- Split a code-point list on a separator code point (like `str.split(sep)`:
keeps empty fields). -/
def splitOnCp (sep : Nat) : List Nat → List (List Nat)
  | [] => [[]]
  | c :: rest =>
    let r := splitOnCp sep rest
    if c == sep then [] :: r
    else
      match r with
      | [] => [[c]]
      | h :: t => (c :: h) :: t

/-- `datetime.strptime(value, "%Y-%m-%d").date()`: a 4-digit year, a dash, a
1-2 digit month, a dash, a 1-2 digit day, consuming the whole string (no
surrounding whitespace tolerated), followed by `datetime.date` range
validation.  `none` models the raised `ValueError`. -/
def parseISO (s : List Nat) : Option CalDate :=
  match splitOnCp 45 s with
  | [ys, ms, ds] =>
    if ys.length == 4 && ys.all isDigitCp &&
        1 ≤ ms.length && ms.length ≤ 2 && ms.all isDigitCp &&
        1 ≤ ds.length && ds.length ≤ 2 && ds.all isDigitCp then
      let dt : CalDate := ⟨digitsToNat ys, digitsToNat ms, digitsToNat ds⟩
      if validDate dt then some dt else none
    else none
  | _ => none

/-- Zero-pad a number to two ASCII-digit code points. -/
def padTwo (n : Nat) : List Nat :=
  [48 + n / 10 % 10, 48 + n % 10]

/-- Zero-pad a number to four ASCII-digit code points. -/
def padFour (n : Nat) : List Nat :=
  [48 + n / 1000 % 10, 48 + n / 100 % 10, 48 + n / 10 % 10, 48 + n % 10]

/-- `date.isoformat()`: the canonical zero-padded `YYYY-MM-DD` rendering. -/
def isoFormat (d : CalDate) : List Nat :=
  padFour d.year ++ [45] ++ padTwo d.month ++ [45] ++ padTwo d.day

/-- The heterogeneous date inputs the engine accepts: a string, a
`datetime.date`, or a `datetime.datetime` (whose time-of-day payload is
modelled as seconds into the day). -/
inductive PyDateInput where
  | str (s : List Nat)
  | dateV (d : CalDate)
  | datetimeV (d : CalDate) (secondsIntoDay : Nat)
deriving DecidableEq, Repr

/-- `legalbrain.rules._to_date`: a `date` (and not `datetime`) is returned as
is; a `datetime` is truncated to its date component; a string is parsed with
`datetime.strptime(value, "%Y-%m-%d")` only.  `none` models the propagated
`ValueError`. -/
def toDate : PyDateInput → Option CalDate
  | .dateV d => some d
  | .datetimeV d _ => some d
  | .str s => parseISO s

/-- Python truthiness of a date-like argument: `None` and the empty string
are falsy; every other string, and every `date`/`datetime`, is truthy. -/
def pyTruthy : Option PyDateInput → Bool
  | none => false
  | some (.str s) => !s.isEmpty
  | some _ => true

/-- Python `needle in haystack` on strings: substring containment, tested at
every suffix of the haystack. -/
def containsSub (needle : List Nat) : List Nat → Bool
  | [] => needle.isEmpty
  | c :: rest => needle.isPrefixOf (c :: rest) || containsSub needle rest

/-- ASCII lowering of one code point (`str.lower`, restricted to the ASCII
range, which is all the fixed keyword tokens exercise). -/
def pyLowerCp (c : Nat) : Nat :=
  if 65 ≤ c && c ≤ 90 then c + 32 else c

/-- `str.lower()` on the code-point model. -/
def pyLower (s : List Nat) : List Nat :=
  s.map pyLowerCp

/-- `legalbrain.rules.MORATORIUM_SWITCH_DATE = date(2024, 4, 1)`. -/
def MORATORIUM_SWITCH_DATE : CalDate := ⟨2024, 4, 1⟩

/-- `legalbrain.rules.POST_SWITCH_MORATORIUM_MONTHS`. -/
def POST_SWITCH_MORATORIUM_MONTHS : Nat := 60

/-- `legalbrain.rules.PRE_SWITCH_MORATORIUM_MONTHS`. -/
def PRE_SWITCH_MORATORIUM_MONTHS : Nat := 96

/-- `legalbrain.rules._months_between`: whole-completed-months between two
dates, clamped below at 0. -/
def months_between (start e : CalDate) : Nat :=
  let months : Int := ((e.year : Int) - start.year) * 12 + ((e.month : Int) - start.month)
  let months := if e.day < start.day then months - 1 else months
  (max 0 months).toNat

/-- `legalbrain.rules.MoratoriumCheck` (string fields in the code-point model). -/
structure MoratoriumCheck where
  policy_start_date : List Nat
  as_of_date : List Nat
  policy_age_months : Nat
  applicable_moratorium_months : Nat
  eligible_for_moratorium_protection : Bool
  rule_applied : List Nat
deriving DecidableEq, Repr

/-- `legalbrain.rules.check_moratorium_eligibility`.  `today` models
`date.today()`; `none` models a propagated date-parse `ValueError`.  The
reference date defaults to `today` when `as_of_date` is falsy (absent or the
empty string), mirroring `_to_date(as_of_date) if as_of_date else date.today()`. -/
def check_moratorium_eligibility (today : CalDate) (policy_start_date : PyDateInput)
    (as_of_date : Option PyDateInput) : Option MoratoriumCheck :=
  match toDate policy_start_date with
  | none => none
  | some policy_start =>
    let currentOpt : Option CalDate :=
      if pyTruthy as_of_date then
        match as_of_date with
        | some v => toDate v
        | none => none
      else some today
    match currentOpt with
    | none => none
    | some current =>
      let post := dateLe MORATORIUM_SWITCH_DATE policy_start
      let cap := if post then POST_SWITCH_MORATORIUM_MONTHS else PRE_SWITCH_MORATORIUM_MONTHS
      let rule := if post then pyStr "post_april_2024_5_year_rule"
        else pyStr "pre_april_2024_8_year_rule"
      let age := months_between policy_start current
      some {
        policy_start_date := isoFormat policy_start
        as_of_date := isoFormat current
        policy_age_months := age
        applicable_moratorium_months := cap
        eligible_for_moratorium_protection := decide (cap ≤ age)
        rule_applied := rule }

/-- The fixed keyword tuple inlined in
`legalbrain.rules.should_override_nondisclosure_rejection`. -/
def nondisclosure_tokens : List (List Nat) :=
  [pyStr "non-disclosure", pyStr "nondisclosure", pyStr "non disclosure",
   pyStr "suppression", pyStr "pre-existing", pyStr "pre existing",
   pyStr "ped", pyStr "hidden"]

/-- The classifier inlined in `should_override_nondisclosure_rejection`:
`any(token in rejection_reason.lower() for token in nondisclosure_tokens)`. -/
def is_nondisclosure_reason (reason : List Nat) : Bool :=
  nondisclosure_tokens.any fun token => containsSub token (pyLower reason)

/-- `legalbrain.rules.RejectionOverrideDecision`. -/
structure RejectionOverrideDecision where
  moratorium : MoratoriumCheck
  rejection_reason : List Nat
  alleged_fraud : Bool
  is_nondisclosure_rejection : Bool
  override_nondisclosure_rejection : Bool
  decision_reason : List Nat
deriving DecidableEq, Repr

/-- `legalbrain.rules.should_override_nondisclosure_rejection`. -/
def should_override_nondisclosure_rejection (today : CalDate)
    (policy_start_date : PyDateInput) (rejection_reason : List Nat)
    (as_of_date : Option PyDateInput) (alleged_fraud : Bool) :
    Option RejectionOverrideDecision :=
  match check_moratorium_eligibility today policy_start_date as_of_date with
  | none => none
  | some moratorium =>
    let is_nd := is_nondisclosure_reason rejection_reason
    let override := moratorium.eligible_for_moratorium_protection && is_nd && !alleged_fraud
    let decision :=
      if override then
        pyStr "Override rejection: moratorium window elapsed, non-disclosure basis cannot be used without proven fraud."
      else if alleged_fraud && is_nd then
        pyStr "Fraud allegation present: override not automatic, insurer proof must be examined."
      else if !is_nd then
        pyStr "Rejection reason is not a non-disclosure class dispute."
      else
        pyStr "Moratorium period not yet elapsed."
    some {
      moratorium
      rejection_reason
      alleged_fraud
      is_nondisclosure_rejection := is_nd
      override_nondisclosure_rejection := override
      decision_reason := decision }

/-- Python whitespace test for `str.strip()` (the ASCII whitespace class). -/
def pyIsSpaceCp (c : Nat) : Bool :=
  c == 32 || c == 9 || c == 10 || c == 13 || c == 11 || c == 12

/-- `str.strip()`: drop leading and trailing whitespace. -/
def pyStrip (s : List Nat) : List Nat :=
  ((s.dropWhile pyIsSpaceCp).reverse.dropWhile pyIsSpaceCp).reverse

/-- Accumulator pass for `splitWs`. -/
def splitWsAux (acc : List Nat) : List Nat → List (List Nat)
  | [] => if acc.isEmpty then [] else [acc.reverse]
  | c :: rest =>
    if pyIsSpaceCp c then
      if acc.isEmpty then splitWsAux [] rest
      else acc.reverse :: splitWsAux [] rest
    else splitWsAux (c :: acc) rest

/-- Split on runs of whitespace, discarding empty fields (the shape `strptime`
gives whitespace in a format string: it matches one or more whitespace
characters). -/
def splitWs (s : List Nat) : List (List Nat) :=
  splitWsAux [] s

/-- `datetime.strptime` with format `%d-%m-%Y` (`sep = 45`) or `%d/%m/%Y`
(`sep = 47`): 1-2 digit day, separator, 1-2 digit month, separator, 4-digit
year, then `date` validation. -/
def parseDMYSep (sep : Nat) (s : List Nat) : Option CalDate :=
  match splitOnCp sep s with
  | [ds, ms, ys] =>
    if 1 ≤ ds.length && ds.length ≤ 2 && ds.all isDigitCp &&
        1 ≤ ms.length && ms.length ≤ 2 && ms.all isDigitCp &&
        ys.length == 4 && ys.all isDigitCp then
      let dt : CalDate := ⟨digitsToNat ys, digitsToNat ms, digitsToNat ds⟩
      if validDate dt then some dt else none
    else none
  | _ => none

/-- English month names for `%B` (matched case-insensitively by `strptime`). -/
def monthNamesFull : List (List Nat × Nat) :=
  [(pyStr "january", 1), (pyStr "february", 2), (pyStr "march", 3), (pyStr "april", 4),
   (pyStr "may", 5), (pyStr "june", 6), (pyStr "july", 7), (pyStr "august", 8),
   (pyStr "september", 9), (pyStr "october", 10), (pyStr "november", 11),
   (pyStr "december", 12)]

/-- Abbreviated English month names for `%b`. -/
def monthNamesAbbrev : List (List Nat × Nat) :=
  [(pyStr "jan", 1), (pyStr "feb", 2), (pyStr "mar", 3), (pyStr "apr", 4),
   (pyStr "may", 5), (pyStr "jun", 6), (pyStr "jul", 7), (pyStr "aug", 8),
   (pyStr "sep", 9), (pyStr "oct", 10), (pyStr "nov", 11), (pyStr "dec", 12)]

/-- Case-insensitive month-name lookup. -/
def lookupMonth (table : List (List Nat × Nat)) (tok : List Nat) : Option Nat :=
  (table.find? fun p => p.fst == pyLower tok).map (·.snd)

/-- `datetime.strptime` with format `%d %B %Y` / `%d %b %Y`: day, month name,
4-digit year, separated by whitespace runs. -/
def parseDayMonthNameYear (table : List (List Nat × Nat)) (s : List Nat) : Option CalDate :=
  match splitWs s with
  | [ds, nameTok, ys] =>
    match lookupMonth table nameTok with
    | none => none
    | some m =>
      if 1 ≤ ds.length && ds.length ≤ 2 && ds.all isDigitCp &&
          ys.length == 4 && ys.all isDigitCp then
        let dt : CalDate := ⟨digitsToNat ys, m, digitsToNat ds⟩
        if validDate dt then some dt else none
      else none
  | _ => none

/-- `datetime.strptime` with format `%B %d, %Y` / `%b %d, %Y`: month name,
day immediately followed by a comma, 4-digit year. -/
def parseMonthNameDayCommaYear (table : List (List Nat × Nat)) (s : List Nat) :
    Option CalDate :=
  match splitWs s with
  | [nameTok, dayTok, ys] =>
    match lookupMonth table nameTok with
    | none => none
    | some m =>
      let ds := dayTok.dropLast
      if dayTok.getLast? == some 44 && 1 ≤ ds.length && ds.length ≤ 2 &&
          ds.all isDigitCp && ys.length == 4 && ys.all isDigitCp then
        let dt : CalDate := ⟨digitsToNat ys, m, digitsToNat ds⟩
        if validDate dt then some dt else none
      else none
  | _ => none

/-- The format trial order of `evidence_matcher._coerce_to_date`: `%Y-%m-%d`
first, then `%d-%m-%Y`, `%d/%m/%Y`, `%d %B %Y`, `%d %b %Y`, `%B %d, %Y`,
`%b %d, %Y`. -/
def coerceFormats : List (List Nat → Option CalDate) :=
  [parseISO, parseDMYSep 45, parseDMYSep 47,
   parseDayMonthNameYear monthNamesFull, parseDayMonthNameYear monthNamesAbbrev,
   parseMonthNameDayCommaYear monthNamesFull, parseMonthNameDayCommaYear monthNamesAbbrev]

/-- `evidence_matcher._coerce_to_date`: a `date` is returned as is, a
`datetime` is truncated, and a string is stripped of surrounding whitespace
and tried against each format in order; `none` models the final
`ValueError("Unsupported date format: ...")`. -/
def coerce_to_date : PyDateInput → Option CalDate
  | .dateV d => some d
  | .datetimeV d _ => some d
  | .str s => coerceFormats.findSome? fun fmt => fmt (pyStrip s)

/-- `legal_rag.MORATORIUM_YEARS` (compared against a float policy age, so
modelled as a rational). -/
def MORATORIUM_YEARS : ℚ := 5

/-- The keyword list inlined in `legal_rag.moratorium_rule_check` (note: it
has no space-separated "non disclosure" entry, unlike `nondisclosure_tokens`). -/
def rag_nondisclosure_keywords : List (List Nat) :=
  [pyStr "non-disclosure", pyStr "nondisclosure", pyStr "suppression",
   pyStr "pre-existing", pyStr "pre existing", pyStr "ped", pyStr "hidden"]

/-- The classifier inlined in `legal_rag.moratorium_rule_check`. -/
def rag_nondisclosure_dispute (reason : List Nat) : Bool :=
  rag_nondisclosure_keywords.any fun token => containsSub token (pyLower reason)

/-- `schemas.LegalPosition`. -/
structure LegalPosition where
  moratorium_applies : Bool
  illegal_rejection : Bool
  legal_basis : List Nat
  recommended_action : List Nat
deriving DecidableEq, Repr

/-- `legal_rag.moratorium_rule_check` (the policy age, a Python float, is
modelled as a rational; the claims only exercise its ordering against 5). -/
def moratorium_rule_check (policy_age_years : ℚ) (rejection_reason : List Nat)
    (alleged_fraud : Bool) : LegalPosition :=
  let nondisclosure_dispute := rag_nondisclosure_dispute rejection_reason
  let moratorium_applies := decide (MORATORIUM_YEARS < policy_age_years)
  let illegal_rejection := moratorium_applies && nondisclosure_dispute && !alleged_fraud
  let legal_basis := pyStr "IRDAI health insurance moratorium standard (updated April 2024): after 5 years of continuous coverage, non-disclosure disputes cannot be used to repudiate claims unless fraud is proven."
  let recommended_action :=
    if illegal_rejection then
      pyStr "Demand immediate reversal, cite 5-year moratorium protection, and escalate to Bima Bharosa and Insurance Ombudsman if insurer does not comply."
    else
      pyStr "Request full repudiation basis with clause citations and evidence, then proceed to escalation if grounds remain weak or non-compliant."
  ⟨moratorium_applies, illegal_rejection, legal_basis, recommended_action⟩

end ClaimClaw

namespace ClaimClaw

/-- The record `check_moratorium_eligibility` builds once both dates are in
hand: `d` the parsed policy start, `cur` the effective reference date. -/
def mkCheck (d cur : CalDate) : MoratoriumCheck :=
  { policy_start_date := isoFormat d
    as_of_date := isoFormat cur
    policy_age_months := months_between d cur
    applicable_moratorium_months :=
      if dateLe MORATORIUM_SWITCH_DATE d then POST_SWITCH_MORATORIUM_MONTHS
      else PRE_SWITCH_MORATORIUM_MONTHS
    eligible_for_moratorium_protection :=
      decide ((if dateLe MORATORIUM_SWITCH_DATE d then POST_SWITCH_MORATORIUM_MONTHS
        else PRE_SWITCH_MORATORIUM_MONTHS) ≤ months_between d cur)
    rule_applied :=
      if dateLe MORATORIUM_SWITCH_DATE d then pyStr "post_april_2024_5_year_rule"
      else pyStr "pre_april_2024_8_year_rule" }

/-- Any successful `check_moratorium_eligibility` result has the shape
computed from the parsed policy start date and the effective reference date. -/
lemma check_eq_some {today : CalDate} {psd : PyDateInput} {aod : Option PyDateInput}
    {r : MoratoriumCheck} (h : check_moratorium_eligibility today psd aod = some r) :
    ∃ d cur, toDate psd = some d ∧ r = mkCheck d cur := by
  unfold check_moratorium_eligibility at h
  cases htd : toDate psd with
  | none => rw [htd] at h; simp at h
  | some d =>
    rw [htd] at h
    simp only [] at h
    split at h
    · exact absurd h (by simp)
    · next cur hcur =>
      simp only [Option.some.injEq] at h
      exact ⟨d, cur, rfl, h.symm⟩

/-- Success of the engine when the reference date is absent: the current date
is used. -/
lemma check_some_none (today : CalDate) {psd : PyDateInput} {d : CalDate}
    (htd : toDate psd = some d) :
    check_moratorium_eligibility today psd none = some (mkCheck d today) := by
  unfold check_moratorium_eligibility
  rw [htd]
  rfl

/-- Success of the engine on a truthy reference date that parses. -/
lemma check_some_truthy (today : CalDate) {psd : PyDateInput} {d : CalDate}
    (htd : toDate psd = some d) {v : PyDateInput} (hv : pyTruthy (some v) = true)
    {cur : CalDate} (hcur : toDate v = some cur) :
    check_moratorium_eligibility today psd (some v) = some (mkCheck d cur) := by
  unfold check_moratorium_eligibility
  rw [htd]
  simp only [hv, if_true, hcur]
  rfl

/-- C1: the window is selected by the Python comparison
`policy_start >= MORATORIUM_SWITCH_DATE` (here `dateLe MORATORIUM_SWITCH_DATE d`)
on the parsed policy start date alone: on or after 2024-04-01 gives 60 months
and rule "post_april_2024_5_year_rule", strictly before gives 96 months and
rule "pre_april_2024_8_year_rule"; and the selected window and rule never
depend on the current date or the reference date. -/
theorem moratorium_window_selection (today : CalDate) (psd : PyDateInput)
    (aod : Option PyDateInput) (r : MoratoriumCheck)
    (h : check_moratorium_eligibility today psd aod = some r) :
    (∃ d, toDate psd = some d ∧
      ((dateLe MORATORIUM_SWITCH_DATE d = true →
          r.applicable_moratorium_months = 60 ∧
            r.rule_applied = pyStr "post_april_2024_5_year_rule") ∧
        (dateLe MORATORIUM_SWITCH_DATE d = false →
          r.applicable_moratorium_months = 96 ∧
            r.rule_applied = pyStr "pre_april_2024_8_year_rule"))) ∧
    ∀ today2 aod2 r2,
      check_moratorium_eligibility today2 psd aod2 = some r2 →
        r2.applicable_moratorium_months = r.applicable_moratorium_months ∧
          r2.rule_applied = r.rule_applied := by
  obtain ⟨d, cur, htd, hr⟩ := check_eq_some h
  subst hr
  refine ⟨⟨d, htd, ?_, ?_⟩, ?_⟩
  · intro hge
    simp [mkCheck, hge, POST_SWITCH_MORATORIUM_MONTHS]
  · intro hlt
    simp [mkCheck, hlt, PRE_SWITCH_MORATORIUM_MONTHS]
  · intro today2 aod2 r2 h2
    obtain ⟨d2, cur2, htd2, hr2⟩ := check_eq_some h2
    rw [htd] at htd2
    injection htd2 with hdd
    subst hdd
    subst hr2
    simp [mkCheck]

/-- Witness for C1 at the two boundary start dates 2024-03-31 and 2024-04-01. -/
theorem moratorium_window_selection_witness :
    ∃ d, toDate (.str (pyStr "2024-03-31")) = some d ∧
      ((dateLe MORATORIUM_SWITCH_DATE d = true →
          (mkCheck ⟨2024, 3, 31⟩ ⟨2030, 1, 1⟩).applicable_moratorium_months = 60 ∧
            (mkCheck ⟨2024, 3, 31⟩ ⟨2030, 1, 1⟩).rule_applied =
              pyStr "post_april_2024_5_year_rule") ∧
        (dateLe MORATORIUM_SWITCH_DATE d = false →
          (mkCheck ⟨2024, 3, 31⟩ ⟨2030, 1, 1⟩).applicable_moratorium_months = 96 ∧
            (mkCheck ⟨2024, 3, 31⟩ ⟨2030, 1, 1⟩).rule_applied =
              pyStr "pre_april_2024_8_year_rule")) :=
  (moratorium_window_selection ⟨2025, 1, 1⟩ (.str (pyStr "2024-03-31"))
    (some (.str (pyStr "2030-01-01"))) (mkCheck ⟨2024, 3, 31⟩ ⟨2030, 1, 1⟩) (by decide)).1

/-- C4 counterexample: `checkEligibility("2018-04-01", "2024-04-02")` does NOT
return the post-April-2024 5-year rule with 60 months and eligibility true —
the window is selected by the policy start date (2018-04-01, before the
transition), not by the reference date. -/
theorem eligibility_example_2018_counterexample :
    ((check_moratorium_eligibility ⟨2024, 4, 2⟩ (.str (pyStr "2018-04-01"))
        (some (.str (pyStr "2024-04-02")))).map fun r =>
      (r.rule_applied, r.applicable_moratorium_months, r.eligible_for_moratorium_protection)) ≠
      some (pyStr "post_april_2024_5_year_rule", 60, true) := by
  decide

/-- C4 amended: `checkEligibility("2018-04-01", "2024-04-02")` returns the
pre-April-2024 8-year rule with 96 applicable months, a policy age of 72
months, and eligibility false. -/
theorem eligibility_example_2018_amended :
    ((check_moratorium_eligibility ⟨2024, 4, 2⟩ (.str (pyStr "2018-04-01"))
        (some (.str (pyStr "2024-04-02")))).map fun r =>
      (r.rule_applied, r.applicable_moratorium_months, r.policy_age_months,
        r.eligible_for_moratorium_protection)) =
      some (pyStr "pre_april_2024_8_year_rule", 96, 72, false) := by
  decide

/-- C5: `moratorium_rule_check` applies a flat strict 5-year cutoff —
`moratorium_applies` is true exactly when the age exceeds 5 years (so exactly
5.0 yields false), independently of the rejection reason and of the fraud
flag (no date/transition awareness), and `illegal_rejection` is
`moratorium_applies AND nondisclosure AND NOT alleged_fraud`; in contrast,
the date-aware engine is eligible at exactly its window boundary (its
comparison is non-strict, e.g. exactly 60 months under the 60-month rule). -/
theorem flat_five_year_rule_spec (age : ℚ) (reason : List Nat) (fraud : Bool) :
    ((moratorium_rule_check age reason fraud).moratorium_applies = true ↔ 5 < age) ∧
    (moratorium_rule_check 5 reason fraud).moratorium_applies = false ∧
    (moratorium_rule_check age reason fraud).illegal_rejection =
      ((moratorium_rule_check age reason fraud).moratorium_applies &&
        rag_nondisclosure_dispute reason && !fraud) ∧
    (∀ reason2 fraud2, (moratorium_rule_check age reason2 fraud2).moratorium_applies =
      (moratorium_rule_check age reason fraud).moratorium_applies) ∧
    ((check_moratorium_eligibility ⟨2029, 4, 1⟩ (.dateV ⟨2024, 4, 1⟩)
        (some (.dateV ⟨2029, 4, 1⟩))).map fun r =>
      (r.policy_age_months, r.applicable_moratorium_months,
        r.eligible_for_moratorium_protection)) = some (60, 60, true) := by
  refine ⟨?_, ?_, ?_, ?_, by decide⟩
  · simp [moratorium_rule_check, MORATORIUM_YEARS]
  · simp [moratorium_rule_check, MORATORIUM_YEARS]
  · simp [moratorium_rule_check]
  · intro reason2 fraud2
    simp [moratorium_rule_check]

/-- C6 counterexample: the two rule paths do not share one classification
rule — the reason "non disclosure" (the space-separated token, which the
claim says both paths classify) is classified as non-disclosure by
the token list of `should_override_nondisclosure_rejection` but NOT by
the keyword list of `moratorium_rule_check`, which omits "non disclosure". -/
theorem classifier_divergence_counterexample :
    is_nondisclosure_reason (pyStr "non disclosure") = true ∧
    rag_nondisclosure_dispute (pyStr "non disclosure") = false ∧
    (moratorium_rule_check 6 (pyStr "non disclosure") false).illegal_rejection = false ∧
    ((should_override_nondisclosure_rejection ⟨2026, 2, 17⟩ (.str (pyStr "2015-01-10"))
        (pyStr "non disclosure") (some (.str (pyStr "2026-02-17"))) false).map
      (·.is_nondisclosure_rejection)) = some true := by
  refine ⟨by decide, by decide, by decide, by decide⟩

/-- C6 amended: both rule paths classify by lowering the reason and testing
substring membership against a fixed token list, but the lists differ:
the keyword list of `moratorium_rule_check` is exactly
the token list of `should_override_nondisclosure_rejection` WITHOUT the
space-separated "non disclosure" entry.  Consequently every reason whose
lowering contains "non disclosure" is classified by the override path, and
anything the simplified path classifies is also classified by the override
path — but not conversely. -/
theorem classifier_tokens_amended (reason : List Nat)
    (h : containsSub (pyStr "non disclosure") (pyLower reason) = true) :
    is_nondisclosure_reason reason = true ∧
    (∀ r2, rag_nondisclosure_dispute r2 = true → is_nondisclosure_reason r2 = true) ∧
    rag_nondisclosure_keywords =
      nondisclosure_tokens.filter (fun t => !(t == pyStr "non disclosure")) := by
  refine ⟨?_, ?_, by decide⟩
  · unfold is_nondisclosure_reason
    exact List.any_eq_true.mpr ⟨pyStr "non disclosure", by decide, h⟩
  · intro r2 h2
    unfold rag_nondisclosure_dispute at h2
    obtain ⟨t, ht, hp⟩ := List.any_eq_true.mp h2
    have hsub : ∀ x ∈ rag_nondisclosure_keywords, x ∈ nondisclosure_tokens := by decide
    unfold is_nondisclosure_reason
    exact List.any_eq_true.mpr ⟨t, hsub t ht, hp⟩

/-- Witness for C6 amended: a mixed-case reason containing "non disclosure"
is classified by the override path. -/
theorem classifier_tokens_amended_witness :
    is_nondisclosure_reason (pyStr "Claim repudiated for NON Disclosure of illness") = true :=
  (classifier_tokens_amended (pyStr "Claim repudiated for NON Disclosure of illness")
    (by decide)).1

/-- C7 amended: the own normalizer of the moratorium engine (`_to_date`) accepts
only date-like values (datetimes truncated to their date) and untrimmed ISO
`YYYY-MM-DD` strings; the multi-format normalizer that also accepts
`DD-MM-YYYY`, `DD/MM/YYYY`, `DD Month YYYY`, `Month DD, YYYY` and
abbreviated-month variants, trims surrounding whitespace, and tries the
canonical ISO format first, is `_coerce_to_date` of the evidence matcher. -/
theorem date_normalizer_amended :
    (∀ d, toDate (.dateV d) = some d) ∧
    (∀ d t, toDate (.datetimeV d t) = some d) ∧
    (∀ s, toDate (.str s) = parseISO s) ∧
    (∀ s d, parseISO (pyStrip s) = some d → coerce_to_date (.str s) = some d) ∧
    (∀ d t, coerce_to_date (.datetimeV d t) = some d) ∧
    coerce_to_date (.str (pyStr "  2024-05-01  ")) = some ⟨2024, 5, 1⟩ ∧
    coerce_to_date (.str (pyStr "01-05-2024")) = some ⟨2024, 5, 1⟩ ∧
    coerce_to_date (.str (pyStr "01/05/2024")) = some ⟨2024, 5, 1⟩ ∧
    coerce_to_date (.str (pyStr "01 May 2024")) = some ⟨2024, 5, 1⟩ ∧
    coerce_to_date (.str (pyStr "1 Jan 2024")) = some ⟨2024, 1, 1⟩ ∧
    coerce_to_date (.str (pyStr "May 01, 2024")) = some ⟨2024, 5, 1⟩ ∧
    coerce_to_date (.str (pyStr "Jan 1, 2024")) = some ⟨2024, 1, 1⟩ ∧
    toDate (.str (pyStr "2024-05-01")) = some ⟨2024, 5, 1⟩ := by
  refine ⟨fun d => rfl, fun d t => rfl, fun s => rfl, ?_, fun d t => rfl,
    by decide, by decide, by decide, by decide, by decide, by decide, by decide, by decide⟩
  intro s d h
  simp only [coerce_to_date, coerceFormats]
  rw [List.findSome?.eq_def]
  simp [h]

/-- Witness for C7 amended: the ISO-first trial applied to a canonical ISO
string. -/
theorem date_normalizer_amended_witness :
    coerce_to_date (.str (pyStr "2024-12-31")) = some ⟨2024, 12, 31⟩ :=
  date_normalizer_amended.2.2.2.1 (pyStr "2024-12-31") ⟨2024, 12, 31⟩ (by decide)

/-- C7 counterexample: the normalizer the moratorium engine uses (`_to_date`)
accepts only ISO strings and does not trim whitespace — it rejects
"01-05-2024" (DD-MM-YYYY) and " 2024-05-01" (untrimmed ISO), both of which
the claim says it accepts; the multi-format trimming normalizer is the
`_coerce_to_date` of the evidence matcher. -/
theorem engine_normalizer_counterexample :
    toDate (.str (pyStr "01-05-2024")) = none ∧
    toDate (.str (pyStr " 2024-05-01")) = none ∧
    coerce_to_date (.str (pyStr "01-05-2024")) = some ⟨2024, 5, 1⟩ ∧
    coerce_to_date (.str (pyStr " 2024-05-01")) = some ⟨2024, 5, 1⟩ := by
  refine ⟨by decide, by decide, by decide, by decide⟩

/-- C3: `should_override_nondisclosure_rejection` overrides iff the wrapped
moratorium check is eligible AND the reason classifies as non-disclosure AND
fraud is not alleged; fraud suppresses the override regardless of
eligibility; the decision text is assigned by the precedence
override / fraud-with-non-disclosure / not-non-disclosure / not-elapsed, with
four pairwise distinct texts; and for policy start 2015-01-10, reason
"non-disclosure", as-of 2026-02-17, alleged fraud yields override false while
the same call without fraud yields true. -/
theorem override_decision_spec (today : CalDate) (psd : PyDateInput) (reason : List Nat)
    (aod : Option PyDateInput) (fraud : Bool) (dec : RejectionOverrideDecision)
    (h : should_override_nondisclosure_rejection today psd reason aod fraud = some dec) :
    (dec.override_nondisclosure_rejection = true ↔
      dec.moratorium.eligible_for_moratorium_protection = true ∧
        is_nondisclosure_reason reason = true ∧ fraud = false) ∧
    dec.is_nondisclosure_rejection = is_nondisclosure_reason reason ∧
    dec.alleged_fraud = fraud ∧
    (fraud = true → dec.override_nondisclosure_rejection = false) ∧
    dec.decision_reason =
      (if dec.override_nondisclosure_rejection then
        pyStr "Override rejection: moratorium window elapsed, non-disclosure basis cannot be used without proven fraud."
      else if fraud && is_nondisclosure_reason reason then
        pyStr "Fraud allegation present: override not automatic, insurer proof must be examined."
      else if !is_nondisclosure_reason reason then
        pyStr "Rejection reason is not a non-disclosure class dispute."
      else
        pyStr "Moratorium period not yet elapsed.") ∧
    ([pyStr "Override rejection: moratorium window elapsed, non-disclosure basis cannot be used without proven fraud.",
      pyStr "Fraud allegation present: override not automatic, insurer proof must be examined.",
      pyStr "Rejection reason is not a non-disclosure class dispute.",
      pyStr "Moratorium period not yet elapsed."] : List (List Nat)).Nodup ∧
    ((should_override_nondisclosure_rejection ⟨2026, 2, 17⟩ (.str (pyStr "2015-01-10"))
        (pyStr "non-disclosure") (some (.str (pyStr "2026-02-17"))) true).map
      (·.override_nondisclosure_rejection) = some false) ∧
    ((should_override_nondisclosure_rejection ⟨2026, 2, 17⟩ (.str (pyStr "2015-01-10"))
        (pyStr "non-disclosure") (some (.str (pyStr "2026-02-17"))) false).map
      (·.override_nondisclosure_rejection) = some true) := by
  unfold should_override_nondisclosure_rejection at h
  cases hmc : check_moratorium_eligibility today psd aod with
  | none => rw [hmc] at h; simp at h
  | some m =>
    rw [hmc] at h
    simp only [Option.some.injEq] at h
    subst h
    refine ⟨?_, rfl, rfl, ?_, rfl, by decide, by decide, by decide⟩
    · simp [Bool.and_eq_true, Bool.not_eq_true', and_assoc]
    · intro hf
      subst hf
      simp

/-- Witness for C3: the fraud-suppression component at the concrete inputs of
the claim (fraud alleged, otherwise-eligible non-disclosure rejection). -/
theorem override_decision_spec_witness :
    ({ moratorium := mkCheck ⟨2015, 1, 10⟩ ⟨2026, 2, 17⟩
       rejection_reason := pyStr "non-disclosure"
       alleged_fraud := true
       is_nondisclosure_rejection := true
       override_nondisclosure_rejection := false
       decision_reason :=
         pyStr "Fraud allegation present: override not automatic, insurer proof must be examined."
     } : RejectionOverrideDecision).override_nondisclosure_rejection = false :=
  (override_decision_spec ⟨2026, 2, 17⟩ (.str (pyStr "2015-01-10")) (pyStr "non-disclosure")
    (some (.str (pyStr "2026-02-17"))) true _ (by decide)).2.2.2.1 rfl

/-- Unfolding of the Python strict order on dates into its three cases. -/
lemma dateLt_cases (a b : CalDate) (h : dateLt a b = true) :
    a.year < b.year ∨ (a.year = b.year ∧ a.month < b.month) ∨
      (a.year = b.year ∧ a.month = b.month ∧ a.day < b.day) := by
  have h' : dateLe a b = true ∧ a ≠ b := by simpa [dateLt] using h
  obtain ⟨hle, hne⟩ := h'
  unfold dateLe at hle
  split_ifs at hle with hy hm
  · left
    simpa using hle
  · right; left
    exact ⟨by simpa using hy, by simpa using hle⟩
  · right; right
    have hyy : a.year = b.year := by simpa using hy
    have hmm : a.month = b.month := by simpa using hm
    have hdle : a.day ≤ b.day := by simpa using hle
    have hdne : a.day ≠ b.day := by
      intro hd
      exact hne (by cases a; cases b; simp_all)
    exact ⟨hyy, hmm, by omega⟩

/-- C2: `_months_between` computes
`(end.year - start.year) * 12 + (end.month - start.month)`, minus 1 when the
end day-of-month is before the start day-of-month, clamped below at 0 (so the
result is a non-negative integer); it is 0 on equal dates and 0 whenever the
end date precedes the start date — and through the engine, a reference date
earlier than the policy start yields age 0 and eligibility false, with no
error. -/
theorem months_between_spec (s e : CalDate) (hs : validDate s = true)
    (he : validDate e = true) :
    ((months_between s e : Int) =
      max 0 (((e.year : Int) - s.year) * 12 + ((e.month : Int) - s.month) -
        (if e.day < s.day then 1 else 0))) ∧
    months_between s s = 0 ∧
    (dateLt e s = true → months_between s e = 0) ∧
    (∀ today r, check_moratorium_eligibility today (.dateV s) (some (.dateV e)) = some r →
      dateLt e s = true →
        r.policy_age_months = 0 ∧ r.eligible_for_moratorium_protection = false) := by
  simp only [validDate, Bool.and_eq_true, decide_eq_true_eq] at hs he
  obtain ⟨⟨⟨⟨⟨hs1, hs2⟩, hs3⟩, hs4⟩, hs5⟩, hs6⟩ := hs
  obtain ⟨⟨⟨⟨⟨he1, he2⟩, he3⟩, he4⟩, he5⟩, he6⟩ := he
  have hz : ∀ X : Int, X ≤ 0 → (max 0 X).toNat = 0 := by
    intro X hX
    rw [max_eq_left hX]
    rfl
  have key : dateLt e s = true → months_between s e = 0 := by
    intro hlt
    rcases dateLt_cases e s hlt with hy | ⟨hy, hm⟩ | ⟨hy, hm, hd⟩ <;>
      · simp only [months_between]
        by_cases hdd : e.day < s.day <;> simp only [hdd, if_true, if_false] <;>
          apply hz <;> omega
  refine ⟨?_, ?_, key, ?_⟩
  · simp only [months_between]
    by_cases hdd : e.day < s.day <;>
      · simp only [hdd, if_true, if_false]
        rw [Int.toNat_of_nonneg (le_max_left _ _)]
        try omega
  · simp [months_between]
  · intro today r h hlt
    rw [@check_some_truthy today (.dateV s) s rfl (.dateV e) rfl e rfl] at h
    injection h with h
    subst h
    constructor
    · simpa [mkCheck] using key hlt
    · simp only [mkCheck, key hlt]
      cases hp : dateLe MORATORIUM_SWITCH_DATE s <;>
        simp [hp, POST_SWITCH_MORATORIUM_MONTHS, PRE_SWITCH_MORATORIUM_MONTHS]

/-- Witness for C2: equal dates give age 0; an earlier reference date gives
age 0 and eligibility false through the engine. -/
theorem months_between_spec_witness :
    validDate ⟨2024, 5, 10⟩ = true ∧ months_between ⟨2024, 5, 10⟩ ⟨2024, 5, 10⟩ = 0 ∧
      months_between ⟨2024, 5, 10⟩ ⟨2020, 1, 1⟩ = 0 :=
  ⟨by decide, (months_between_spec ⟨2024, 5, 10⟩ ⟨2024, 5, 10⟩ (by decide) (by decide)).2.1,
    (months_between_spec ⟨2024, 5, 10⟩ ⟨2020, 1, 1⟩ (by decide) (by decide)).2.2.1 (by decide)⟩

/-- C8 counterexample: date normalization also fails on the EMPTY string (the
claim says it fails exactly on non-empty unmatched strings or unrecognized
types): `_to_date("")` raises, and the engine called with an empty
policy-start string propagates that failure. -/
theorem unparsable_empty_counterexample :
    pyStr "" = ([] : List Nat) ∧
    toDate (.str []) = none ∧
    check_moratorium_eligibility ⟨2026, 1, 1⟩ (.str []) none = none := by
  refine ⟨by decide, by decide, by decide⟩

/-- C8 amended: date normalization fails exactly when a string (empty
included) matches no supported format; the engine itself introduces no other
failure — `check_moratorium_eligibility` fails exactly when the policy start
fails to parse or the reference date is truthy and fails to parse, the
failure is propagated unmodified (the overall result is the error), and with
both dates valid the engine always succeeds with the computed record. -/
theorem error_propagation_amended (today : CalDate) (psd : PyDateInput)
    (aod : Option PyDateInput) :
    (check_moratorium_eligibility today psd aod = none ↔
      toDate psd = none ∨
        ∃ v, aod = some v ∧ pyTruthy (some v) = true ∧ toDate v = none) ∧
    (∀ s, toDate (.str s) = parseISO s) ∧
    (∀ d, toDate psd = some d → aod = none →
      check_moratorium_eligibility today psd aod = some (mkCheck d today)) ∧
    (∀ d v cur, toDate psd = some d → aod = some v → pyTruthy (some v) = true →
      toDate v = some cur →
        check_moratorium_eligibility today psd aod = some (mkCheck d cur)) := by
  refine ⟨?_, fun s => rfl, ?_, ?_⟩
  · cases htd : toDate psd with
    | none =>
      simp only [check_moratorium_eligibility, htd]
      simp
    | some d =>
      cases aod with
      | none =>
        rw [check_some_none today htd]
        simp [htd]
      | some v =>
        by_cases hv : pyTruthy (some v) = true
        · cases hcv : toDate v with
          | none =>
            have hnone : check_moratorium_eligibility today psd (some v) = none := by
              unfold check_moratorium_eligibility
              rw [htd]
              simp [hv, hcv]
            rw [hnone]
            simp [htd, hv, hcv]
          | some cur =>
            rw [check_some_truthy today htd hv hcv]
            simp [htd, hv, hcv]
        · have hv' : pyTruthy (some v) = false := by simpa using hv
          have hsome : check_moratorium_eligibility today psd (some v) =
              some (mkCheck d today) := by
            unfold check_moratorium_eligibility
            rw [htd]
            simp only [hv', Bool.false_eq_true, if_false]
            rfl
          rw [hsome]
          simp [htd, hv']
  · intro d htd haod
    subst haod
    exact check_some_none today htd
  · intro d v cur htd haod hv hcv
    subst haod
    exact check_some_truthy today htd hv hcv

/-- Witness for C8 amended: a policy start that matches no format makes the
whole call fail, by the failure characterization. -/
theorem error_propagation_amended_witness :
    check_moratorium_eligibility ⟨2026, 1, 1⟩ (.str (pyStr "bogus")) none = none :=
  (error_propagation_amended ⟨2026, 1, 1⟩ (.str (pyStr "bogus")) none).1.mpr
    (Or.inl (by decide))

/-- C9: an empty-string `as_of_date` is falsy, so the engine treats it
exactly like an absent reference date and substitutes the current date (no
parse error is raised); the `as_of_date` field of the result echoes the current date;
and every non-empty string is actually parsed — an unparsable non-empty
string fails the call rather than being defaulted. -/
theorem empty_as_of_defaults (today : CalDate) (psd : PyDateInput) (reason : List Nat)
    (fraud : Bool) :
    check_moratorium_eligibility today psd (some (.str [])) =
      check_moratorium_eligibility today psd none ∧
    should_override_nondisclosure_rejection today psd reason (some (.str [])) fraud =
      should_override_nondisclosure_rejection today psd reason none fraud ∧
    (∀ d, toDate psd = some d →
      check_moratorium_eligibility today psd (some (.str [])) = some (mkCheck d today)) ∧
    (∀ s, s ≠ [] → parseISO s = none →
      check_moratorium_eligibility today psd (some (.str s)) = none) := by
  have h1 : check_moratorium_eligibility today psd (some (.str [])) =
      check_moratorium_eligibility today psd none := by
    cases htd : toDate psd <;> simp [check_moratorium_eligibility, htd, pyTruthy]
  refine ⟨h1, ?_, ?_, ?_⟩
  · unfold should_override_nondisclosure_rejection
    rw [h1]
  · intro d htd
    rw [h1]
    exact check_some_none today htd
  · intro s hs hp
    cases htd : toDate psd with
    | none => simp [check_moratorium_eligibility, htd]
    | some d =>
      have hsne : s.isEmpty = false := by
        cases s with
        | nil => exact absurd rfl hs
        | cons c t => rfl
      unfold check_moratorium_eligibility
      rw [htd]
      simp [pyTruthy, hsne, toDate, hp]

/-- Witness for C9: with a valid policy start, an unparsable non-empty
reference string fails the call (it is parsed, not defaulted). -/
theorem empty_as_of_defaults_witness :
    check_moratorium_eligibility ⟨2026, 2, 17⟩ (.str (pyStr "2015-01-10"))
        (some (.str (pyStr "not-a-date"))) = none :=
  (empty_as_of_defaults ⟨2026, 2, 17⟩ (.str (pyStr "2015-01-10")) (pyStr "x")
    false).2.2.2 (pyStr "not-a-date") (by decide) (by decide)

/-- Splitting a separator-free list yields the single field. -/
lemma splitOnCp_no_sep {sep : Nat} {xs : List Nat} (h : ∀ c ∈ xs, c ≠ sep) :
    splitOnCp sep xs = [xs] := by
  induction xs with
  | nil => rfl
  | cons c t ih =>
    have hc : c ≠ sep := h c (by simp)
    have ht : ∀ x ∈ t, x ≠ sep := fun x hx => h x (by simp [hx])
    simp [splitOnCp, hc, ih ht]

/-- Splitting peels off a separator-free field before a separator. -/
lemma splitOnCp_append {sep : Nat} {xs ys : List Nat} (h : ∀ c ∈ xs, c ≠ sep) :
    splitOnCp sep (xs ++ sep :: ys) = xs :: splitOnCp sep ys := by
  induction xs with
  | nil => simp [splitOnCp]
  | cons c t ih =>
    have hc : c ≠ sep := h c (by simp)
    have ht : ∀ x ∈ t, x ≠ sep := fun x hx => h x (by simp [hx])
    simp [splitOnCp, hc, ih ht]

lemma padFour_length (n : Nat) : (padFour n).length = 4 := rfl

lemma padTwo_length (n : Nat) : (padTwo n).length = 2 := rfl

lemma padFour_all_digits (n : Nat) : (padFour n).all isDigitCp = true := by
  simp [padFour, isDigitCp]
  omega

lemma padTwo_all_digits (n : Nat) : (padTwo n).all isDigitCp = true := by
  simp [padTwo, isDigitCp]
  omega

lemma padFour_ne45 (n : Nat) : ∀ c ∈ padFour n, c ≠ 45 := by
  intro c hc
  simp [padFour] at hc
  rcases hc with rfl | rfl | rfl | rfl <;> omega

lemma padTwo_ne45 (n : Nat) : ∀ c ∈ padTwo n, c ≠ 45 := by
  intro c hc
  simp [padTwo] at hc
  rcases hc with rfl | rfl <;> omega

lemma digitsToNat_padFour {n : Nat} (h : n ≤ 9999) : digitsToNat (padFour n) = n := by
  simp [digitsToNat, padFour]
  omega

lemma digitsToNat_padTwo {n : Nat} (h : n ≤ 99) : digitsToNat (padTwo n) = n := by
  simp [digitsToNat, padTwo]
  omega

lemma daysInMonth_le_31 (y m : Nat) : daysInMonth y m ≤ 31 := by
  unfold daysInMonth
  split_ifs <;> omega

/-- Parsing the canonical zero-padded ISO rendering of a representable date
recovers the date. -/
lemma parseISO_isoFormat {d : CalDate} (h : validDate d = true) :
    parseISO (isoFormat d) = some d := by
  obtain ⟨y, m, dd⟩ := d
  simp only [validDate, Bool.and_eq_true, decide_eq_true_eq] at h
  obtain ⟨⟨⟨⟨⟨h1, h2⟩, h3⟩, h4⟩, h5⟩, h6⟩ := h
  have hd31 : dd ≤ 31 := le_trans h6 (daysInMonth_le_31 y m)
  have hsplit : splitOnCp 45 (isoFormat ⟨y, m, dd⟩) = [padFour y, padTwo m, padTwo dd] := by
    have e : isoFormat ⟨y, m, dd⟩ = padFour y ++ 45 :: (padTwo m ++ 45 :: padTwo dd) := by
      simp [isoFormat]
    rw [e, splitOnCp_append (padFour_ne45 y), splitOnCp_append (padTwo_ne45 m),
      splitOnCp_no_sep (padTwo_ne45 dd)]
  have ey : digitsToNat (padFour y) = y := digitsToNat_padFour (by omega)
  have em : digitsToNat (padTwo m) = m := digitsToNat_padTwo (by omega)
  have ed : digitsToNat (padTwo dd) = dd := digitsToNat_padTwo (by omega)
  have hvd : validDate ⟨y, m, dd⟩ = true := by
    simp only [validDate, Bool.and_eq_true, decide_eq_true_eq]
    exact ⟨⟨⟨⟨⟨h1, h2⟩, h3⟩, h4⟩, h5⟩, h6⟩
  unfold parseISO
  rw [hsplit]
  simp [padFour_length, padTwo_length, padFour_all_digits, padTwo_all_digits,
    ey, em, ed, hvd]

/-- C10: for policy start and reference dates supplied as canonical
zero-padded ISO `YYYY-MM-DD` strings, `check_moratorium_eligibility` echoes
the two input strings unchanged in its `policy_start_date` and `as_of_date`
fields (parse followed by `isoformat` round-trips canonical ISO input). -/
theorem iso_echo_round_trip (today ps a : CalDate)
    (hps : validDate ps = true) (ha : validDate a = true) :
    ∃ r, check_moratorium_eligibility today (.str (isoFormat ps))
        (some (.str (isoFormat a))) = some r ∧
      r.policy_start_date = isoFormat ps ∧ r.as_of_date = isoFormat a := by
  have h1 : toDate (.str (isoFormat ps)) = some ps := parseISO_isoFormat hps
  have h2 : toDate (.str (isoFormat a)) = some a := parseISO_isoFormat ha
  have hv : pyTruthy (some (.str (isoFormat a))) = true := by
    simp [pyTruthy, isoFormat, padFour]
  exact ⟨mkCheck ps a, check_some_truthy today h1 hv h2, rfl, rfl⟩

/-- Witness for C10 at the concrete strings "2015-01-10" and "2026-02-17". -/
theorem iso_echo_round_trip_witness :
    ∃ r, check_moratorium_eligibility ⟨2026, 1, 1⟩ (.str (isoFormat ⟨2015, 1, 10⟩))
        (some (.str (isoFormat ⟨2026, 2, 17⟩))) = some r ∧
      r.policy_start_date = isoFormat ⟨2015, 1, 10⟩ ∧
        r.as_of_date = isoFormat ⟨2026, 2, 17⟩ :=
  iso_echo_round_trip ⟨2026, 1, 1⟩ ⟨2015, 1, 10⟩ ⟨2026, 2, 17⟩ (by decide) (by decide)

end ClaimClaw
